import Mathlib

/-!
Verification development for the `rituals` Decentraland scene
(`src/index.ts` and `src/cameraSystem.ts`).

The shallow embedding below translates, from the TypeScript source:

* the module-level launch configuration constants;
* `formatTimeRemaining` (countdown formatter);
* `shouldPortalBeActive` (clock/window evaluator), with its module-level
  configuration and `Date.now()` made explicit parameters;
* the dynamic poll-interval selection of the countdown system
  (`needsImmediateCheck` / `checkInterval`);
* the portal activation/deactivation step of the countdown system,
  instrumented with a counter of teleport-trigger registrations
  (`utils.triggers.addTrigger` side effects on the trigger zone);
* the axis-aligned zone containment tests (`inZone1` / `inZone2` and the
  instant-teleport `isWithinX/Y/Z` check), over exact rationals;
* the continuous kersplat scanner with its cooldown flag and the 3 second
  `setTimeout` that clears it, the pending timer modelled as its absolute
  expiry time;
* the tree cinematic camera phase machine (`resetTreeCamera`,
  `resetToDefaultCamera` and the phase/timing/control part of the camera
  animation system; the trigonometric position interpolation is omitted,
  no claim below depends on camera positions).

Times are integer milliseconds, as produced by JavaScript `Date.now()`.
-/

namespace Rituals

/-- Master shutdown constant `ROCKSCAPE_PORTAL_SHUTDOWN` (src/index.ts line 19). -/
def ROCKSCAPE_PORTAL_SHUTDOWN : Bool := false

/-- Timed-launch enable constant `ENABLE_TIMED_LAUNCH` (src/index.ts line 26). -/
def ENABLE_TIMED_LAUNCH : Bool := true

/-- Launch start `new Date(\x7b2025-11-01T01:00:00Z\x7d).getTime()` in ms
(src/index.ts line 30). -/
def LAUNCH_START_TIME : Int := 1761958800000

/-- Launch end constant `LAUNCH_END_TIME` (src/index.ts line 31); `0` means
the portal never closes. -/
def LAUNCH_END_TIME : Int := 0

/-- Direction text prepended by the formatter when time remains. -/
def fmtPfx (isBeforeStart : Bool) : String :=
  if isBeforeStart then "PORTAL OPENS IN:\n" else "PORTAL CLOSES IN:\n"

/-- `formatTimeRemaining` (src/index.ts lines 136-162). JavaScript template
interpolation is written as string concatenation; `Math.floor` of a
non-negative quotient is natural division. -/
def formatTimeRemaining (milliseconds : Int) (isBeforeStart : Bool) : String :=
  if milliseconds ≤ 0 then
    if isBeforeStart then "PORTAL OPENING SOON..." else "PORTAL CLOSED"
  else
    let totalSeconds := milliseconds.toNat / 1000
    let days := totalSeconds / 86400
    let hours := (totalSeconds % 86400) / 3600
    let minutes := (totalSeconds % 3600) / 60
    let seconds := totalSeconds % 60
    if days > 0 then
      fmtPfx isBeforeStart ++ toString days ++ "d " ++ toString hours ++ "h "
        ++ toString minutes ++ "m"
    else if hours > 0 then
      fmtPfx isBeforeStart ++ toString hours ++ "h " ++ toString minutes ++ "m"
    else if minutes > 0 then
      fmtPfx isBeforeStart ++ toString minutes ++ "m " ++ toString seconds ++ "s"
    else
      fmtPfx isBeforeStart ++ toString seconds ++ "s"

/-- `shouldPortalBeActive` (src/index.ts lines 164-182), with the module
configuration constants and `Date.now()` passed explicitly. -/
def shouldPortalBeActive (shutdown enableTimedLaunch : Bool)
    (startTime endTime now : Int) : Bool :=
  if shutdown then false
  else if !enableTimedLaunch then true
  else if endTime = 0 then decide (now ≥ startTime)
  else decide (now ≥ startTime) && decide (now < endTime)

/-- The evaluator as deployed: `shouldPortalBeActive` reading the repository
configuration constants. -/
def shouldPortalBeActiveRepo (now : Int) : Bool :=
  shouldPortalBeActive ROCKSCAPE_PORTAL_SHUTDOWN ENABLE_TIMED_LAUNCH
    LAUNCH_START_TIME LAUNCH_END_TIME now

/-- `needsImmediateCheck` (src/index.ts line 1452): evaluator says active but
the state machine is still inactive. -/
def needsImmediateCheck (shouldBeActive isPortalActive : Bool) : Bool :=
  shouldBeActive && !isPortalActive

/-- Poll interval selection in seconds (src/index.ts lines 1454-1475). The
source initialises `checkInterval = 1` and reassigns through the
`if`/`else if` chain; the net value is this conditional. -/
def checkInterval (immediate : Bool) (timeUntilEvent : Int) : Nat :=
  if immediate then 0
  else if timeUntilEvent ≤ 0 then 1
  else if timeUntilEvent ≤ 5000 then 0
  else if timeUntilEvent ≤ 600000 then 1
  else if timeUntilEvent ≤ 3600000 then 10
  else 60

/-- Poll interval as claimed by the specification table: interval determined
solely by time-to-next-event with strict thresholds, with no separate case
for a non-positive time-to-event. -/
def checkIntervalSpec (timeUntilEvent : Int) : Nat :=
  if timeUntilEvent < 5000 then 0
  else if timeUntilEvent < 600000 then 1
  else if timeUntilEvent < 3600000 then 10
  else 60

/-- The mutable module state driven by the countdown system that the claims
about trigger registration mention: `isPortalActive` (src/index.ts line 129),
`triggerAdded` (line 132), plus an instrumentation counter `registrations`
recording how many times `utils.triggers.addTrigger` has been called on the
teleport trigger zone. -/
structure PortalState where
  isPortalActive : Bool
  triggerAdded : Bool
  registrations : Nat
deriving Repr, DecidableEq

/-- One activation/deactivation check of the countdown system
(src/index.ts lines 1537-1585), as a function of the evaluator output
`shouldBeActive` for this check. On the `INACTIVE` to `ACTIVE` edge the
source shows the portal model, enlarges the trigger zone, and calls
`addTrigger` only when `triggerAdded` is still false, then sets
`triggerAdded = true`; on the `ACTIVE` to `INACTIVE` edge it hides the
model, shrinks the zone, and hides the countdown; otherwise nothing
changes. Only the state fields the claims mention are kept. -/
def portalStep (shouldBeActive : Bool) (s : PortalState) : PortalState :=
  if shouldBeActive && !s.isPortalActive then
    { isPortalActive := true
      triggerAdded := true
      registrations := if s.triggerAdded then s.registrations else s.registrations + 1 }
  else if !shouldBeActive && s.isPortalActive then
    { s with isPortalActive := false }
  else s

/-- Run the countdown system over a sequence of evaluator outputs, one per
executed check. -/
def portalRun (inputs : List Bool) (s : PortalState) : PortalState :=
  inputs.foldl (fun st b => portalStep b st) s

/-- Module state right after scene construction (`main`): src/index.ts
line 927 sets `isPortalActive = shouldPortalBeActive()`, and lines 1026-1048
call `addTrigger` on the trigger zone when `isPortalActive` is already true,
without touching `triggerAdded`. -/
def sceneInit (activeAtConstruction : Bool) : PortalState :=
  { isPortalActive := activeAtConstruction
    triggerAdded := false
    registrations := if activeAtConstruction then 1 else 0 }

/-- A 3D point/vector with exact rational coordinates. -/
structure Vec3 where
  x : ℚ
  y : ℚ
  z : ℚ
deriving Repr, DecidableEq

/-- JavaScript `Math.abs` on exact rationals. -/
def jsAbs (q : ℚ) : ℚ := if q < 0 then -q else q

/-- Absolute values agree: `jsAbs` is the lattice `|q|`. -/
theorem jsAbs_eq_abs (q : ℚ) : jsAbs q = |q| := by
  unfold jsAbs
  rcases lt_or_le q 0 with h | h
  · rw [if_pos h, abs_of_neg h]
  · rw [if_neg (not_lt.mpr h), abs_of_nonneg h]

/-- Axis-aligned box containment as computed by the source: independent
per-axis comparison `Math.abs(p - center) <= halfExtent`
(src/index.ts lines 1285-1301 and 1505-1516). -/
def zoneContains (center half p : Vec3) : Bool :=
  decide (jsAbs (p.x - center.x) ≤ half.x) &&
  decide (jsAbs (p.y - center.y) ≤ half.y) &&
  decide (jsAbs (p.z - center.z) ≤ half.z)

/-- Kersplat zone 1 test (src/index.ts lines 1280-1289): center
(168, 0, -24), sizes 140 x 1 x 160, compared against `size / 2`. -/
def inZone1 (p : Vec3) : Bool :=
  zoneContains ⟨168, 0, -24⟩ ⟨140 / 2, 1 / 2, 160 / 2⟩ p

/-- Kersplat zone 2 test (src/index.ts lines 1292-1301): center
(168, 12, -24), sizes 50 x 1 x 50, compared against `size / 2`. -/
def inZone2 (p : Vec3) : Bool :=
  zoneContains ⟨168, 12, -24⟩ ⟨50 / 2, 1 / 2, 50 / 2⟩ p

/-- Instant-teleport zone test (src/index.ts lines 1498-1516): center
(168.8, 22, -32), cubic size 8, per-axis `dist <= zoneSize / 2`. -/
def instantTeleportZoneContains (p : Vec3) : Bool :=
  zoneContains ⟨844 / 5, 22, -32⟩ ⟨8 / 2, 8 / 2, 8 / 2⟩ p

/-- State of the continuous kersplat scanner (src/index.ts lines 1271-1338):
the `kersplatCooldown` flag, the pending 3 second `setTimeout` that clears
it (modelled by its absolute expiry time), and an instrumentation counter
of respawn actions (`movePlayerTo` back to spawn). -/
structure KersplatState where
  kersplatCooldown : Bool
  cooldownResetAt : Option Int
  respawns : Nat
deriving Repr, DecidableEq

/-- One tick of the continuous kersplat scan system at time `now` with the
player at `p`. A due cooldown-reset timer fires before the scan runs (the
host runs timer callbacks between frames); then the scan skips entirely
while on cooldown, and otherwise respawns and arms the cooldown when the
player is inside either zone, scheduling the reset 3000 ms later. -/
def kersplatStep (now : Int) (p : Vec3) (s : KersplatState) : KersplatState :=
  let s :=
    match s.cooldownResetAt with
    | some t => if now ≥ t then { s with kersplatCooldown := false, cooldownResetAt := none } else s
    | none => s
  if s.kersplatCooldown then s
  else if inZone1 p || inZone2 p then
    { kersplatCooldown := true
      cooldownResetAt := some (now + 3000)
      respawns := s.respawns + 1 }
  else s

/-- Run the kersplat scanner over a list of (tick time, player position)
samples. -/
def kersplatRun (events : List (Int × Vec3)) (s : KersplatState) : KersplatState :=
  events.foldl (fun st e => kersplatStep e.1 e.2 st) s

/-- The cinematic sequence types of src/cameraSystem.ts line 24. -/
inductive AnimType
  | tree
  | portal
  | npc
  | running
  | landing
deriving Repr, DecidableEq

/-- Tree camera phases (src/cameraSystem.ts line 30); the source literal
string `return` is `ret` here because `return` is reserved in Lean. -/
inductive TreePhase
  | tilt
  | hold
  | orbit
  | ret
deriving Repr, DecidableEq

/-- The mutable camera-system module state that the claims mention
(src/cameraSystem.ts lines 19-34): whether `MainCamera.virtualCameraEntity`
points at a virtual camera, whether `activeCinematicCamera` is non-null,
the animation flags and clocks. Camera positions are not modelled (the
position updates use floating-point trigonometry and no claim depends on
them). -/
structure CameraState where
  mainCameraVirtual : Bool
  activeCinematicCamera : Bool
  isAnimating : Bool
  animationType : Option AnimType
  treeCameraPhase : TreePhase
  animationStartTime : Int
  returnStartTime : Int
deriving Repr, DecidableEq

/-- `resetToDefaultCamera` (src/cameraSystem.ts lines 61-72). -/
def resetToDefaultCamera (s : CameraState) : CameraState :=
  if s.activeCinematicCamera then
    { s with mainCameraVirtual := false
             activeCinematicCamera := false
             isAnimating := false
             animationType := none
             treeCameraPhase := .tilt }
  else s

/-- `resetTreeCamera` called at time `now` (src/cameraSystem.ts lines
85-97): during a tree sequence it records the return start time, switches
the phase to `return` and keeps animating (the saved `returnStartPos` is a
camera position, not modelled); otherwise it falls back to an instant
reset. -/
def resetTreeCamera (now : Int) (s : CameraState) : CameraState :=
  if s.animationType = some .tree then
    { s with returnStartTime := now
             treeCameraPhase := .ret
             isAnimating := true }
  else resetToDefaultCamera s

/-- The phase/timing/control content of one run of the camera animation
system at time `now` (src/cameraSystem.ts lines 100-223). Durations:
tilt 1500 ms, orbit 7400 ms, return 2000 ms, landing pan 3000 ms; a
progress ratio `min(elapsed / duration, 1)` reaches 1 exactly when
`elapsed >= duration`. The `portal`, `npc` and `running` branches of the
source are comment-only no-ops; position writes are omitted. -/
def cameraTick (now : Int) (s : CameraState) : CameraState :=
  if !s.isAnimating || s.animationType = none then s
  else
    match s.animationType with
    | some .tree =>
      match s.treeCameraPhase with
      | .tilt =>
        if now - s.animationStartTime ≥ 1500 then { s with treeCameraPhase := .hold } else s
      | .hold => s
      | .orbit =>
        if now - s.animationStartTime ≥ 7400 then { s with isAnimating := false } else s
      | .ret =>
        if now - s.returnStartTime ≥ 2000 then
          { s with mainCameraVirtual := false
                   activeCinematicCamera := false
                   isAnimating := false
                   animationType := none
                   treeCameraPhase := .tilt }
        else s
    | some .landing =>
      if now - s.animationStartTime ≥ 3000 then resetToDefaultCamera s else s
    | _ => s

/-- C2: for every current time, the evaluator is inactive whenever the
shutdown override is set, regardless of the window; otherwise with an
open-ended window (end = 0) it is active exactly when the start has been
reached, and with a closed window exactly when `start <= now < end`. The
timed-launch enable flag is the repository constant
`ENABLE_TIMED_LAUNCH = true`. -/
theorem C2_window_evaluator (shutdown : Bool) (startTime endTime now : Int) :
    (shutdown = true →
      shouldPortalBeActive shutdown ENABLE_TIMED_LAUNCH startTime endTime now = false) ∧
    (shutdown = false → endTime = 0 →
      (shouldPortalBeActive shutdown ENABLE_TIMED_LAUNCH startTime endTime now = true ↔
        startTime ≤ now)) ∧
    (shutdown = false → endTime ≠ 0 →
      (shouldPortalBeActive shutdown ENABLE_TIMED_LAUNCH startTime endTime now = true ↔
        startTime ≤ now ∧ now < endTime)) := by
  refine ⟨fun h => by subst h; rfl, fun h he => ?_, fun h he => ?_⟩
  · subst h
    simp [shouldPortalBeActive, ENABLE_TIMED_LAUNCH, he, ge_iff_le]
  · subst h
    simp [shouldPortalBeActive, ENABLE_TIMED_LAUNCH, he, ge_iff_le]

/-- Witness for C2 at concrete inputs. -/
theorem C2_witness :
    shouldPortalBeActive true ENABLE_TIMED_LAUNCH 0 0 5 = false ∧
    (shouldPortalBeActive false ENABLE_TIMED_LAUNCH 10 0 12 = true ↔ (10 : Int) ≤ 12) ∧
    (shouldPortalBeActive false ENABLE_TIMED_LAUNCH 10 20 12 = true ↔
      (10 : Int) ≤ 12 ∧ (12 : Int) < 20) :=
  ⟨(C2_window_evaluator true 0 0 5).1 rfl,
   (C2_window_evaluator false 10 0 12).2.1 rfl rfl,
   (C2_window_evaluator false 10 20 12).2.2 rfl (by decide)⟩

/-- C3 counterexample: the formatter output is never the bare table string —
every branch carries a `PORTAL ...` direction text, so the outputs are not
equal to the strings quoted in the claim. -/
theorem C3_counterexample :
    formatTimeRemaining 90000 true ≠ "1m 30s" ∧
    formatTimeRemaining 3700000 true ≠ "1h 1m" ∧
    formatTimeRemaining 0 true ≠ "OPENING SOON" ∧
    formatTimeRemaining 0 false ≠ "CLOSED" ∧
    formatTimeRemaining 90061000 true ≠ "1d 1h 1m" := by decide

/-- C3 amended: the countdown table holds with the actual output strings:
each entry is the quoted component string behind the formatter direction
text (`PORTAL OPENS IN:` plus newline), and the zero-remaining messages are
`PORTAL OPENING SOON...` and `PORTAL CLOSED`. -/
theorem C3_countdown_table :
    formatTimeRemaining 90000 true = "PORTAL OPENS IN:\n1m 30s" ∧
    formatTimeRemaining 3700000 true = "PORTAL OPENS IN:\n1h 1m" ∧
    formatTimeRemaining 0 true = "PORTAL OPENING SOON..." ∧
    formatTimeRemaining 0 false = "PORTAL CLOSED" ∧
    formatTimeRemaining 90061000 true = "PORTAL OPENS IN:\n1d 1h 1m" := by decide

/-- C4: for positive remaining time the displayed components are the floored
integer divisions of the remaining milliseconds, and the precision tiers
are: at least one day shows days, hours, minutes and no seconds; at least
one hour (under a day) shows hours and minutes; under one hour with a
nonzero minute component shows minutes and seconds; under one minute shows
seconds only. -/
theorem C4_formatter_tiers (ms : Int) (b : Bool) (hpos : 0 < ms) :
    (86400000 ≤ ms →
      formatTimeRemaining ms b =
        fmtPfx b ++ toString (ms.toNat / 1000 / 86400) ++ "d "
          ++ toString (ms.toNat / 1000 % 86400 / 3600) ++ "h "
          ++ toString (ms.toNat / 1000 % 3600 / 60) ++ "m") ∧
    (3600000 ≤ ms → ms < 86400000 →
      formatTimeRemaining ms b =
        fmtPfx b ++ toString (ms.toNat / 1000 % 86400 / 3600) ++ "h "
          ++ toString (ms.toNat / 1000 % 3600 / 60) ++ "m") ∧
    (ms < 3600000 → 0 < ms.toNat / 1000 % 3600 / 60 →
      formatTimeRemaining ms b =
        fmtPfx b ++ toString (ms.toNat / 1000 % 3600 / 60) ++ "m "
          ++ toString (ms.toNat / 1000 % 60) ++ "s") ∧
    (ms < 60000 →
      formatTimeRemaining ms b = fmtPfx b ++ toString (ms.toNat / 1000 % 60) ++ "s") := by
  have hms : ¬ ms ≤ 0 := not_le.mpr hpos
  refine ⟨fun h1 => ?_, fun h1 h2 => ?_, fun h1 h2 => ?_, fun h1 => ?_⟩
  · have hd : 0 < ms.toNat / 1000 / 86400 := by omega
    simp only [formatTimeRemaining, if_neg hms, if_pos hd]
  · have hd : ¬ 0 < ms.toNat / 1000 / 86400 := by omega
    have hh : 0 < ms.toNat / 1000 % 86400 / 3600 := by omega
    simp only [formatTimeRemaining, if_neg hms, if_neg hd, if_pos hh]
  · have hd : ¬ 0 < ms.toNat / 1000 / 86400 := by omega
    have hh : ¬ 0 < ms.toNat / 1000 % 86400 / 3600 := by omega
    simp only [formatTimeRemaining, if_neg hms, if_neg hd, if_neg hh, if_pos h2]
  · have hd : ¬ 0 < ms.toNat / 1000 / 86400 := by omega
    have hh : ¬ 0 < ms.toNat / 1000 % 86400 / 3600 := by omega
    have hm : ¬ 0 < ms.toNat / 1000 % 3600 / 60 := by omega
    simp only [formatTimeRemaining, if_neg hms, if_neg hd, if_neg hh, if_neg hm]

/-- Witness for C4 at 90061000 ms (one day, one hour, one minute). -/
theorem C4_witness :
    formatTimeRemaining 90061000 true =
      fmtPfx true ++ toString ((90061000 : Int).toNat / 1000 / 86400) ++ "d "
        ++ toString ((90061000 : Int).toNat / 1000 % 86400 / 3600) ++ "h "
        ++ toString ((90061000 : Int).toNat / 1000 % 3600 / 60) ++ "m" :=
  (C4_formatter_tiers 90061000 true (by decide)).1 (by decide)

/-- C10: for remaining time strictly between 0 and 1000 ms every component
floors to zero, so the formatter returns the `0s` form behind the direction
text rather than the zero-remaining message, which fires only at
`milliseconds <= 0`. -/
theorem C10_subsecond_zero_seconds (ms : Int) (b : Bool)
    (h1 : 0 < ms) (h2 : ms < 1000) :
    formatTimeRemaining ms b = fmtPfx b ++ "0s" ∧
    formatTimeRemaining ms b ≠
      (if b then "PORTAL OPENING SOON..." else "PORTAL CLOSED") := by
  have hms : ¬ ms ≤ 0 := not_le.mpr h1
  have hts : ms.toNat / 1000 = 0 := by omega
  have hform : formatTimeRemaining ms b = fmtPfx b ++ "0s" := by
    simp only [formatTimeRemaining, if_neg hms, hts]
    cases b <;> rfl
  refine ⟨hform, ?_⟩
  rw [hform]
  cases b <;> decide

/-- Witness for C10 at 500 ms. -/
theorem C10_witness :
    formatTimeRemaining 500 true = fmtPfx true ++ "0s" ∧
    formatTimeRemaining 500 true ≠ "PORTAL OPENING SOON..." := by
  have h := C10_subsecond_zero_seconds 500 true (by decide) (by decide)
  exact ⟨h.1, by simpa using h.2⟩

/-- C5 counterexample: outside the fast path, at a non-positive
time-to-event (e.g. the portal active with an open-ended window) the code
selects a one-second interval, while the claimed threshold table (under
five seconds means every tick) selects zero. -/
theorem C5_counterexample :
    checkInterval (needsImmediateCheck true true) 0 = 1 ∧
    checkIntervalSpec 0 = 0 ∧
    checkInterval (needsImmediateCheck true true) 0 ≠ checkIntervalSpec 0 := by decide

/-- C5 amended: the fast path gives interval 0 whenever the evaluator says
active while the machine is still inactive; otherwise the interval depends
only on the time-to-next-event, with a one-second interval at or past the
event time (time-to-event non-positive) and inclusive thresholds: up to 5 s
every tick, up to 10 min one second, up to 1 h ten seconds, else sixty
seconds. -/
theorem C5_poll_interval (sba ipa : Bool) (tte : Int) :
    (sba = true → ipa = false → checkInterval (needsImmediateCheck sba ipa) tte = 0) ∧
    (needsImmediateCheck sba ipa = false →
      checkInterval (needsImmediateCheck sba ipa) tte =
        if tte ≤ 0 then 1
        else if tte ≤ 5000 then 0
        else if tte ≤ 600000 then 1
        else if tte ≤ 3600000 then 10
        else 60) := by
  constructor
  · intro h1 h2
    subst h1; subst h2; rfl
  · intro h
    rw [h]
    rfl

/-- Witness for C5 at concrete inputs: fast path with a huge time-to-event,
and a throttled check at 7 s. -/
theorem C5_witness :
    checkInterval (needsImmediateCheck true false) 999999999 = 0 ∧
    checkInterval (needsImmediateCheck false false) 7000 = 1 := by
  refine ⟨(C5_poll_interval true false 999999999).1 rfl rfl, ?_⟩
  rw [(C5_poll_interval false false 7000).2 rfl]
  decide

/-- Once `triggerAdded` is set it survives every step: the flag is only
ever written to `true`. -/
theorem portalStep_triggerAdded_mono (b : Bool) (s : PortalState)
    (h : s.triggerAdded = true) : (portalStep b s).triggerAdded = true := by
  unfold portalStep
  split
  · rfl
  split
  · exact h
  · exact h

/-- After the flag is set, no step registers another callback. -/
theorem portalRun_locked (inputs : List Bool) (s : PortalState)
    (h : s.triggerAdded = true) :
    (portalRun inputs s).registrations = s.registrations ∧
    (portalRun inputs s).triggerAdded = true := by
  induction inputs generalizing s with
  | nil => exact ⟨rfl, h⟩
  | cons b rest ih =>
    have hstep : (portalStep b s).triggerAdded = true := portalStep_triggerAdded_mono b s h
    have hreg : (portalStep b s).registrations = s.registrations := by
      unfold portalStep
      split
      · simp [h]
      split
      · rfl
      · rfl
    have hrest := ih (portalStep b s) hstep
    simp only [portalRun, List.foldl_cons] at hrest ⊢
    exact ⟨hrest.1.trans hreg, hrest.2⟩

/-- From a fresh inactive state, the registration count after a run is one
exactly when some evaluator output was active, and so is the flag. -/
theorem portalRun_fresh (inputs : List Bool) (s : PortalState)
    (ht : s.triggerAdded = false) (ha : s.isPortalActive = false) :
    (portalRun inputs s).registrations =
      s.registrations + (if true ∈ inputs then 1 else 0) ∧
    (portalRun inputs s).triggerAdded = decide (true ∈ inputs) := by
  induction inputs generalizing s with
  | nil => simp [portalRun, ht]
  | cons b rest ih =>
    cases b with
    | false =>
      have hstep : portalStep false s = s := by
        unfold portalStep
        simp [ha]
      simp only [portalRun, List.foldl_cons, hstep]
      have hrest := ih s ht ha
      simp only [portalRun] at hrest
      simpa [List.mem_cons] using hrest
    | true =>
      have hstep : portalStep true s = ⟨true, true, s.registrations + 1⟩ := by
        unfold portalStep
        simp [ha, ht]
      simp only [portalRun, List.foldl_cons, hstep]
      have hrest := portalRun_locked rest ⟨true, true, s.registrations + 1⟩ rfl
      simp only [portalRun] at hrest
      simp [hrest.1, hrest.2, List.mem_cons]

/-- C1: starting from the fresh inactive state (portal inactive, flag
clear, no registrations), any sequence of evaluator outputs produces
exactly one trigger registration when some output is active and none
otherwise, the persistent flag ends true exactly when some output was
active, and the flag is never cleared by any step from any state. -/
theorem C1_trigger_registered_once (inputs : List Bool) :
    (portalRun inputs (sceneInit false)).registrations =
      (if true ∈ inputs then 1 else 0) ∧
    (portalRun inputs (sceneInit false)).triggerAdded = decide (true ∈ inputs) ∧
    (∀ (b : Bool) (s : PortalState), s.triggerAdded = true →
      (portalStep b s).triggerAdded = true) := by
  have h := portalRun_fresh inputs (sceneInit false) rfl rfl
  refine ⟨?_, h.2, portalStep_triggerAdded_mono⟩
  simpa [sceneInit] using h.1

/-- Witness for C1: an oscillating run inactive, active, inactive, active,
active registers exactly once, and a concrete set flag survives a step. -/
theorem C1_witness :
    (portalRun [false, true, false, true, true] (sceneInit false)).registrations = 1 ∧
    (portalStep false ⟨true, true, 1⟩).triggerAdded = true := by
  constructor
  · rw [(C1_trigger_registered_once [false, true, false, true, true]).1]
    decide
  · exact (C1_trigger_registered_once []).2.2 false ⟨true, true, 1⟩ rfl

/-- C9: the construction-time registration performed when the portal is
already active at scene load does not set `triggerAdded`, so a run that
starts active, deactivates, then reactivates registers a second callback
on the same trigger zone; the exactly-once bound holds for runs starting
inactive. -/
theorem C9_construction_time_registration :
    (sceneInit true).triggerAdded = false ∧
    (sceneInit true).registrations = 1 ∧
    (portalRun [false, true] (sceneInit true)).registrations = 2 ∧
    (∀ inputs : List Bool, (portalRun inputs (sceneInit false)).registrations ≤ 1) := by
  refine ⟨rfl, rfl, by decide, fun inputs => ?_⟩
  rw [(portalRun_fresh inputs (sceneInit false) rfl rfl).1]
  split <;> simp [sceneInit]

/-- C8: axis-aligned containment has inclusive boundaries: a point whose
per-axis distance from the center equals the half-extent on every axis is
contained, and a point one unit beyond the half-extent on some axis is
not. Distances are stated with the mathematical absolute value; `jsAbs`
agrees with it by `jsAbs_eq_abs`. -/
theorem C8_zone_boundary (center half p q : Vec3)
    (hx : |p.x - center.x| = half.x)
    (hy : |p.y - center.y| = half.y)
    (hz : |p.z - center.z| = half.z)
    (hq : |q.x - center.x| = half.x + 1 ∨ |q.y - center.y| = half.y + 1 ∨
      |q.z - center.z| = half.z + 1) :
    zoneContains center half p = true ∧ zoneContains center half q = false := by
  unfold zoneContains
  simp only [jsAbs_eq_abs]
  constructor
  · simp [hx, hy, hz]
  · rcases hq with h | h | h
    · have hlt : ¬ (half.x + 1 ≤ half.x) := by linarith
      simp [h, hlt]
    · have hlt : ¬ (half.y + 1 ≤ half.y) := by linarith
      simp [h, hlt]
    · have hlt : ¬ (half.z + 1 ≤ half.z) := by linarith
      simp [h, hlt]

/-- Witness for C8 on kersplat zone 1: the corner point (238, 1/2, 56) sits
exactly on the boundary and is contained; (239, 0, -24) is one unit beyond
the x half-extent and is not. -/
theorem C8_witness :
    zoneContains ⟨168, 0, -24⟩ ⟨70, 1 / 2, 80⟩ ⟨238, 1 / 2, 56⟩ = true ∧
    zoneContains ⟨168, 0, -24⟩ ⟨70, 1 / 2, 80⟩ ⟨239, 0, -24⟩ = false := by
  refine C8_zone_boundary ⟨168, 0, -24⟩ ⟨70, 1 / 2, 80⟩ ⟨238, 1 / 2, 56⟩ ⟨239, 0, -24⟩
    ?_ ?_ ?_ (Or.inl ?_)
  · rw [show (238 : ℚ) - 168 = 70 by norm_num]
    exact abs_of_nonneg (by norm_num)
  · rw [show (1 : ℚ) / 2 - 0 = 1 / 2 by norm_num]
    exact abs_of_nonneg (by norm_num)
  · rw [show (56 : ℚ) - (-24) = 80 by norm_num]
    exact abs_of_nonneg (by norm_num)
  · rw [show (239 : ℚ) - 168 = 70 + 1 by norm_num]
    exact abs_of_nonneg (by norm_num)

/-- While the cooldown flag is set and the pending reset timer is not yet
due, every scanner tick leaves the state unchanged. -/
theorem kersplatRun_locked (events : List (Int × Vec3)) (s : KersplatState) (T : Int)
    (hc : s.kersplatCooldown = true) (hr : s.cooldownResetAt = some T)
    (hb : ∀ e ∈ events, e.1 < T) :
    kersplatRun events s = s := by
  induction events with
  | nil => rfl
  | cons e rest ih =>
    have hstep : kersplatStep e.1 e.2 s = s := by
      unfold kersplatStep
      rw [hr]
      have hdue : ¬ (e.1 ≥ T) := not_le.mpr (hb e (List.mem_cons_self e rest))
      simp [hdue, hc]
    simp only [kersplatRun, List.foldl_cons, hstep]
    exact ih fun e he => hb e (List.mem_cons_of_mem _ he)

/-- C7: when the scanner fires on a qualifying fall detection, it performs
exactly one respawn, and any further qualifying detections strictly within
the 3000 ms cooldown window perform none. -/
theorem C7_cooldown_single_respawn (s : KersplatState) (t1 : Int) (p1 : Vec3)
    (events : List (Int × Vec3))
    (h0 : s.kersplatCooldown = false) (h1 : s.cooldownResetAt = none)
    (hq : (inZone1 p1 || inZone2 p1) = true)
    (hb : ∀ e ∈ events, e.1 < t1 + 3000) :
    (kersplatStep t1 p1 s).respawns = s.respawns + 1 ∧
    (kersplatRun events (kersplatStep t1 p1 s)).respawns =
      (kersplatStep t1 p1 s).respawns := by
  have hstep : kersplatStep t1 p1 s = ⟨true, some (t1 + 3000), s.respawns + 1⟩ := by
    unfold kersplatStep
    rw [h1]
    simp [h0, hq]
  refine ⟨by rw [hstep], ?_⟩
  rw [hstep, kersplatRun_locked events _ (t1 + 3000) rfl rfl hb]

/-- Witness for C7: a fall into zone 1 at time 0 followed by qualifying
positions at 1000 ms and 2999 ms yields exactly one respawn. -/
theorem C7_witness :
    (kersplatStep 0 ⟨168, 0, -24⟩ ⟨false, none, 0⟩).respawns = 1 ∧
    (kersplatRun [(1000, ⟨168, 0, -24⟩), (2999, ⟨168, 12, -24⟩)]
        (kersplatStep 0 ⟨168, 0, -24⟩ ⟨false, none, 0⟩)).respawns =
      (kersplatStep 0 ⟨168, 0, -24⟩ ⟨false, none, 0⟩).respawns := by
  have h := C7_cooldown_single_respawn ⟨false, none, 0⟩ 0 ⟨168, 0, -24⟩
    [(1000, ⟨168, 0, -24⟩), (2999, ⟨168, 12, -24⟩)] rfl rfl
    (by norm_num [inZone1, inZone2, zoneContains, jsAbs])
    (by
      intro e he
      simp only [List.mem_cons, List.not_mem_nil, or_false] at he
      rcases he with rfl | rfl <;> norm_num)
  exact h

/-- C6: calling `resetTreeCamera` during the orbit phase of the tree
sequence immediately switches the phase to `return`; the return phase then
runs for its own fixed 2000 ms measured from the reset call, independent
of the orbit start time and progress, and on completion the phase resets
to `tilt`, the animation stops, and the virtual camera is detached so
control returns to the default player camera. -/
theorem C6_return_preempts_orbit (s : CameraState) (now tick : Int)
    (htype : s.animationType = some .tree)
    (_hphase : s.treeCameraPhase = .orbit) :
    (resetTreeCamera now s).treeCameraPhase = .ret ∧
    (now ≤ tick → tick < now + 2000 →
      (cameraTick tick (resetTreeCamera now s)).treeCameraPhase = .ret ∧
      (cameraTick tick (resetTreeCamera now s)).isAnimating = true) ∧
    (now + 2000 ≤ tick →
      (cameraTick tick (resetTreeCamera now s)).treeCameraPhase = .tilt ∧
      (cameraTick tick (resetTreeCamera now s)).animationType = none ∧
      (cameraTick tick (resetTreeCamera now s)).mainCameraVirtual = false ∧
      (cameraTick tick (resetTreeCamera now s)).isAnimating = false) := by
  have hreset : resetTreeCamera now s =
      { s with returnStartTime := now, treeCameraPhase := .ret, isAnimating := true } := by
    unfold resetTreeCamera
    rw [if_pos htype]
  refine ⟨by rw [hreset], fun hlo hhi => ?_, fun hge => ?_⟩
  · have hnot : ¬ (tick - now ≥ 2000) := by omega
    rw [hreset]
    unfold cameraTick
    simp [htype, hnot]
  · have hdue : tick - now ≥ 2000 := by omega
    rw [hreset]
    unfold cameraTick
    simp [htype, hdue]

/-- Witness for C6: resetting mid-orbit at time 100 and ticking at 2100
completes the return and releases the camera. -/
theorem C6_witness :
    (cameraTick 2100 (resetTreeCamera 100
        ⟨true, true, true, some .tree, .orbit, 0, 0⟩)).treeCameraPhase = .tilt ∧
    (cameraTick 2100 (resetTreeCamera 100
        ⟨true, true, true, some .tree, .orbit, 0, 0⟩)).mainCameraVirtual = false := by
  have h := (C6_return_preempts_orbit ⟨true, true, true, some .tree, .orbit, 0, 0⟩
    100 2100 rfl rfl).2.2 (by omega)
  exact ⟨h.1, h.2.2.1⟩

end Rituals
